import Mathlib

/-!
Shallow embedding of the birdy Twitter client (src/birdy/twitter.py):
the resource path builder, parameter sanitizer, response/error mapper,
streaming line decoder and the application-client token invalidation.
Machine-level collaborators (HTTP transport, JSON text parsing, OAuth
signing) are abstracted as explicit parameters, exactly where the code
delegates to them.
-/

namespace Birdy

/-- Model of a decoded JSON value (the result of response.json or
json.loads). Python None and JSON null coincide as JValue.null; a
decoded object is an association list of fields in insertion order. -/
inductive JValue where
  | null : JValue
  | bool (b : Bool) : JValue
  | num (n : Int) : JValue
  | str (s : String) : JValue
  | arr (elems : List JValue) : JValue
  | obj (fields : List (String × JValue)) : JValue

/-- Python truthiness of a decoded JSON value: None, False, 0, the empty
string, the empty list and the empty dict are falsy; everything else is
truthy. -/
def JValue.truthy : JValue → Bool
  | .null => false
  | .bool b => b
  | .num n => n != 0
  | .str s => s != ""
  | .arr elems => !elems.isEmpty
  | .obj fields => !fields.isEmpty

/-- Python exceptions that can escape the modelled fragments. -/
inductive PyError where
  | keyError (key : String) : PyError
  | typeError (msg : String) : PyError
  | attributeError (msg : String) : PyError

/-- Lookup of a key in a decoded JSON object (dict.get semantics on the
association list: first binding wins, absent key gives none). -/
def dictGet (fields : List (String × JValue)) (key : String) : Option JValue :=
  match fields with
  | [] => none
  | (k, v) :: rest => if k = key then some v else dictGet rest key

/-- Python data.get(key): defined on dicts, AttributeError otherwise. -/
def pyGet (v : JValue) (key : String) : Except PyError (Option JValue) :=
  match v with
  | .obj fields => .ok (dictGet fields key)
  | _ => .error (.attributeError "object has no attribute get")

/-- Python v[key] subscription with a string key: on a dict it returns
the value or raises KeyError; on anything else it raises TypeError. -/
def subscript (v : JValue) (key : String) : Except PyError JValue :=
  match v with
  | .obj fields =>
      match dictGet fields key with
      | some x => .ok x
      | none => .error (.keyError key)
  | _ => .error (.typeError "object is not subscriptable")

/-- Whether the second character list starts with the first one. -/
def charsStartWith : List Char → List Char → Bool
  | [], _ => true
  | _ :: _, [] => false
  | a :: as, b :: bs => a = b && charsStartWith as bs

/-- Whether sub occurs as a contiguous run inside the character list. -/
def charsContain (sub : List Char) : List Char → Bool
  | [] => sub.isEmpty
  | c :: rest => charsStartWith sub (c :: rest) || charsContain sub rest

/-- Python substring test sub in s for strings. -/
def strContains (s sub : String) : Bool :=
  charsContain sub.toList s.toList

/-- Python sub in v for a decoded JSON value: substring test on a
string, element membership on a list, key membership on a dict,
TypeError otherwise. Equality with a string element is structural. -/
def pyIn (sub : String) (v : JValue) : Except PyError Bool :=
  match v with
  | .str s => .ok (strContains s sub)
  | .arr elems => .ok (elems.any (fun e => match e with
      | .str s => s = sub
      | _ => false))
  | .obj fields => .ok (fields.any (fun f => f.fst = sub))
  | _ => .error (.typeError "argument is not iterable")

/-- The error taxonomy of twitter.py. TwitterClientError carries only a
message; the API-side errors carry the extracted message (a decoded
JSON value in the REST path, raw text in the streaming path), the HTTP
status code of the response, and the extracted error code
(JValue.null when the constructor default None applies).
TwitterRateLimitError and TwitterAuthError refine TwitterApiError; the
constructors here are kept distinct, as the classes are. -/
inductive TwitterError where
  | clientError (msg : String) : TwitterError
  | apiError (msg : JValue) (statusCode : Option Nat) (errorCode : JValue) : TwitterError
  | authError (msg : JValue) (statusCode : Option Nat) (errorCode : JValue) : TwitterError
  | rateLimitError (msg : JValue) (statusCode : Option Nat) (errorCode : JValue) : TwitterError

/-- The generic fallback message of get_twitter_error_details. -/
def unknownErrorMsg : String :=
  "An unknown error has occured processing your request."

/-- The assignment errors = data.get of errors if data else None of
get_twitter_error_details: None when data is absent or falsy,
otherwise the dict lookup (with its possible AttributeError on a
non-dict body). -/
def extractErrors (data : Option JValue) : Except PyError (Option JValue) :=
  match data with
  | some d => if d.truthy then pyGet d "errors" else .ok none
  | none => .ok none

/-- Reading code and message out of one errors carrier by
subscription, first the code then the message, either failure
escaping. -/
def codeAndMessage (carrier : JValue) : Except PyError (JValue × JValue) :=
  match subscript carrier "code" with
  | .error err => .error err
  | .ok code =>
    match subscript carrier "message" with
    | .error err => .error err
    | .ok msg => .ok (code, msg)

/-- The branch structure of get_twitter_error_details on the errors
value: a truthy list takes code and message of its first element, any
other truthy value is subscripted directly, everything else keeps the
fallback pair of None and the generic message. -/
def detailsFromErrors (errs : Option JValue) : Except PyError (JValue × JValue) :=
  match errs with
  | none => .ok (.null, .str unknownErrorMsg)
  | some (.arr (e :: _)) => codeAndMessage e
  | some (.arr []) => .ok (.null, .str unknownErrorMsg)
  | some other =>
      if other.truthy then codeAndMessage other
      else .ok (.null, .str unknownErrorMsg)

/-- BaseTwitterClient.get_twitter_error_details: starting from
(None, generic message), read data.get of errors when data is truthy;
when errors is a truthy list take code and message of its first
element, when errors is otherwise truthy take its code and message
directly, otherwise keep the fallback pair. Subscription failures
(missing code or message key, unsubscriptable value) escape as Python
errors, as in the code. -/
def BaseTwitterClient.get_twitter_error_details (data : Option JValue) :
    Except PyError (JValue × JValue) :=
  match extractErrors data with
  | .error e => .error e
  | .ok errs => detailsFromErrors errs

/-- The condition of the first dispatch branch of handle_response,
response.status_code == 401 or the Bad Authentication data substring
test on error_msg, with Python short-circuit: the membership test (and
its possible TypeError on a non-container message) is reached only
when the status is not 401. -/
def authCondition (status : Nat) (errorMsg : JValue) : Except PyError Bool :=
  if status = 401 then .ok true
  else pyIn "Bad Authentication data" errorMsg

/-- Outcome of BaseTwitterClient.handle_response: a success envelope
holding the decoded body, a raised twitter error, or an escaping
Python error. -/
inductive Outcome where
  | success (data : Option JValue) : Outcome
  | raised (e : TwitterError) : Outcome
  | pyRaised (e : PyError) : Outcome

/-- BaseTwitterClient.handle_response on a REST response, as a function
of the status code and of the decode result of the body (none when
response.json raised ValueError). Status 200 returns a success
envelope; a non-200 with undecodable body raises a decode ApiError;
otherwise the extracted details drive the dispatch: auth condition,
then 404, then 429, then the generic ApiError. -/
def BaseTwitterClient.handle_response (status : Nat) (data : Option JValue) : Outcome :=
  if status = 200 then .success data
  else
    match data with
    | none => .raised (.apiError (.str "Unable to decode JSON response.") (some status) .null)
    | some d =>
      match BaseTwitterClient.get_twitter_error_details (some d) with
      | .error e => .pyRaised e
      | .ok (errorCode, errorMsg) =>
        match authCondition status errorMsg with
        | .error e => .pyRaised e
        | .ok true => .raised (.authError errorMsg (some status) errorCode)
        | .ok false =>
          if status = 404 then
            .raised (.apiError (.str "Invalid API resource.") (some status) errorCode)
          else if status = 429 then
            .raised (.rateLimitError errorMsg (some status) errorCode)
          else
            .raised (.apiError errorMsg (some status) errorCode)

/-- Outcome of StreamClient.handle_response: an opened lazy line stream
or a raised twitter error. -/
inductive StreamOutcome where
  | opened : StreamOutcome
  | raised (e : TwitterError) : StreamOutcome

/-- StreamClient.handle_response, as a function of the status code and
of the raw response content (response.content, never JSON-parsed
here). The error code argument of every raised error is the status
code itself. -/
def StreamClient.handle_response (status : Nat) (content : String) : StreamOutcome :=
  if status = 200 then .opened
  else if status = 401 then
    .raised (.authError (.str "Unauthorized.") (some status) (.num (Int.ofNat status)))
  else if status = 404 then
    .raised (.apiError (.str "Invalid API resource.") (some status) (.num (Int.ofNat status)))
  else if status = 420 then
    .raised (.rateLimitError (.str content) (some status) (.num (Int.ofNat status)))
  else
    .raised (.apiError (.str content) (some status) (.num (Int.ofNat status)))

/-- ApiComponent.__getitem__: the path of an ApiComponent is None at
the root; indexing a node with a segment yields a child node whose
path is the segment when the parent path is None, and
parent-slash-segment otherwise. -/
def ApiComponent.getitem (path : Option String) (segment : String) : Option String :=
  match path with
  | none => some segment
  | some base => some (base ++ "/" ++ segment)

/-- ApiComponent.__getattr__ delegates to __getitem__. -/
def ApiComponent.getattr (path : Option String) (segment : String) : Option String :=
  ApiComponent.getitem path segment

/-- The str.format application of the endpoint template: every
occurrence of the endpoint placeholder is replaced by the endpoint
name. -/
def formatEndpoint (template endpoint : String) : String :=
  template.replace "\x7bendpoint\x7d" endpoint

/-- BaseTwitterClient.construct_resource_url: split the path on
slashes; the first piece selects the endpoint of the template, the
rest joined again by slashes forms the resource path; result is
endpointBase/version/resourcePath.json. -/
def BaseTwitterClient.construct_resource_url
    (api_endpoint_format api_version path : String) : String :=
  let paths := path.splitOn "/"
  formatEndpoint api_endpoint_format (paths.headD "") ++ "/" ++ api_version ++ "/"
    ++ String.intercalate "/" paths.tail ++ ".json"

/-- Model of a value bound to a request parameter key: a file-like
object exposing a callable read (identified by a handle name), a
boolean, a list of values, a tuple of values, a string, or an integer
scalar. -/
inductive ParamValue where
  | file (handle : String) : ParamValue
  | bool (b : Bool) : ParamValue
  | list (elems : List ParamValue) : ParamValue
  | tuple (elems : List ParamValue) : ParamValue
  | str (s : String) : ParamValue
  | int (n : Int) : ParamValue

/-- Python str.join element extraction: every element must be a str,
a non-str element raises TypeError. -/
def pyStrElems : List ParamValue → Except PyError (List String)
  | [] => .ok []
  | .str s :: rest =>
      match pyStrElems rest with
      | .ok tail => .ok (s :: tail)
      | .error e => .error e
  | _ :: _ => .error (.typeError "sequence item: expected str instance")

/-- Python sep.join(xs): intercalate the separator when all elements
are strings, TypeError otherwise. -/
def pyJoin (sep : String) (elems : List ParamValue) : Except PyError String :=
  match pyStrElems elems with
  | .ok strs => .ok (String.intercalate sep strs)
  | .error e => .error e

/-- One iteration of the sanitize_params loop: a file-like value is
routed to files (inr); a boolean becomes the string true or false; a
list is comma-joined (TypeError escaping when an element is not a
string); every other value, tuples included, passes through unchanged
into params (inl). The branch order matches the code: read capability,
then bool, then list, then the default. -/
def sanitizeEntry (k : String) (v : ParamValue) :
    Except PyError ((String × ParamValue) ⊕ (String × ParamValue)) :=
  match v with
  | .file h => .ok (.inr (k, .file h))
  | .bool b => .ok (.inl (k, .str (if b then "true" else "false")))
  | .list elems =>
      match pyJoin "," elems with
      | .ok s => .ok (.inl (k, .str s))
      | .error e => .error e
  | other => .ok (.inl (k, other))

/-- BaseTwitterClient.sanitize_params: fold the entry classification
over the input mapping (its items in order), building the params and
files mappings; the first Python error escapes. -/
def BaseTwitterClient.sanitize_params :
    List (String × ParamValue) →
    Except PyError (List (String × ParamValue) × List (String × ParamValue))
  | [] => .ok ([], [])
  | (k, v) :: rest =>
    match sanitizeEntry k v with
    | .error e => .error e
    | .ok routed =>
      match BaseTwitterClient.sanitize_params rest with
      | .error e => .error e
      | .ok (ps, fs) =>
        match routed with
        | .inl kv => .ok (kv :: ps, fs)
        | .inr kv => .ok (ps, kv :: fs)

/-- ApiComponent.get: on a node with path None raise TypeError before
anything else; otherwise issue the request, modelled as the triple of
method, path and parameters handed to the client request pipeline. -/
def ApiComponent.get (path : Option String) (params : List (String × ParamValue)) :
    Except PyError (String × String × List (String × ParamValue)) :=
  match path with
  | none => .error (.typeError "Calling get() on an empty API path is not supported.")
  | some p => .ok ("GET", p, params)

/-- ApiComponent.post, the POST twin of ApiComponent.get. -/
def ApiComponent.post (path : Option String) (params : List (String × ParamValue)) :
    Except PyError (String × String × List (String × ParamValue)) :=
  match path with
  | none => .error (.typeError "Calling post() on an empty API path is not supported.")
  | some p => .ok ("POST", p, params)

/-- StreamResponse.stream over a finite prefix of the line iterator,
parameterised by the external JSON decoder (json.loads with the object
hook; none models any raised decode exception, swallowed by the bare
except). A falsy (empty) line is skipped; a decodable line yields its
value; an undecodable line is dropped. -/
def StreamResponse.stream (decode : String → Option JValue) :
    List String → List JValue
  | [] => []
  | item :: rest =>
    if item != "" then
      match decode item with
      | some data => data :: StreamResponse.stream decode rest
      | none => StreamResponse.stream decode rest
    else
      StreamResponse.stream decode rest

/-- State of an AppClient relevant to token handling: the stored
bearer access token and its type, and the active OAuth2 session,
modelled by the token pair it was built from (none for an
unauthenticated session). -/
structure AppClient where
  access_token : Option String
  token_type : String
  session : Option (String × String)

/-- AppClient.get_oauth_session: the OAuth2 session carries the token
dict exactly when the stored access token is truthy (a non-empty
string). -/
def AppClient.get_oauth_session (access_token : Option String) (token_type : String) :
    Option (String × String) :=
  match access_token with
  | some t => if t != "" then some (t, token_type) else none
  | none => none

/-- AppClient.invalidate_access_token, parameterised by the outcome of
the invalidation POST: a transport exception message, or the HTTP
status code of the response. Returns the raised or returned value
together with the client state after the call. On a transport
exception the error message is wrapped in TwitterClientError and the
state is untouched; on status 200 the prior token is returned, the
stored token cleared and the session rebuilt from the cleared state;
on any other status TwitterClientError is raised and the state is
untouched. -/
def AppClient.invalidate_access_token (c : AppClient) (postResult : Except String Nat) :
    Except TwitterError (Option String) × AppClient :=
  match postResult with
  | .error e => (.error (.clientError e), c)
  | .ok status =>
    if status = 200 then
      let prior := c.access_token
      let cleared : AppClient := { c with access_token := none }
      let rebuilt : AppClient :=
        { cleared with
            session := AppClient.get_oauth_session cleared.access_token cleared.token_type }
      (.ok prior, rebuilt)
    else
      (.error (.clientError "Could not invalidate access token."), c)

/-- Whether a stream outcome is a raised rate-limit error. -/
def StreamOutcome.isRateLimit : StreamOutcome → Bool
  | .raised (.rateLimitError _ _ _) => true
  | _ => false

/-- C8: path building is associative: for every root node and segment
names a and b, indexing twice, indexing once with the slashed name,
and attribute-chained access all give the resolved path a/b, and the
constructed resource URL agrees for the three of them (for every
endpoint template and version). -/
theorem path_building_associative (a b fmt ver : String) :
    ApiComponent.getitem (ApiComponent.getitem none a) b = some (a ++ "/" ++ b)
    ∧ ApiComponent.getitem none (a ++ "/" ++ b) = some (a ++ "/" ++ b)
    ∧ ApiComponent.getattr (ApiComponent.getattr none a) b = some (a ++ "/" ++ b)
    ∧ (ApiComponent.getitem (ApiComponent.getitem none a) b).map
        (BaseTwitterClient.construct_resource_url fmt ver)
      = (ApiComponent.getitem none (a ++ "/" ++ b)).map
        (BaseTwitterClient.construct_resource_url fmt ver)
    ∧ (ApiComponent.getattr (ApiComponent.getattr none a) b).map
        (BaseTwitterClient.construct_resource_url fmt ver)
      = (ApiComponent.getitem none (a ++ "/" ++ b)).map
        (BaseTwitterClient.construct_resource_url fmt ver) :=
  ⟨rfl, rfl, rfl, rfl, rfl⟩

/-- C9: calling get or post on a node whose path is empty (the root)
raises the usage TypeError for every choice of parameters; no request
triple is ever produced, so no network call happens. -/
theorem empty_path_get_post_raises (params : List (String × ParamValue)) :
    ApiComponent.get none params
      = .error (.typeError "Calling get() on an empty API path is not supported.")
    ∧ ApiComponent.post none params
      = .error (.typeError "Calling post() on an empty API path is not supported.") :=
  ⟨rfl, rfl⟩

/-- C7: a streaming response with status 420 raises
TwitterRateLimitError whose message is the raw response content, while
status 429 falls to the generic TwitterApiError branch and is not a
rate-limit error. -/
theorem stream_420_rate_limit (content : String) :
    StreamClient.handle_response 420 content
      = .raised (.rateLimitError (.str content) (some 420) (.num 420))
    ∧ StreamClient.handle_response 429 content
      = .raised (.apiError (.str content) (some 429) (.num 429))
    ∧ (StreamClient.handle_response 429 content).isRateLimit = false :=
  ⟨rfl, rfl, rfl⟩

/-- C3: the stream generator yields exactly the decode results of the
non-empty decodable lines in order, skipping empty lines and lines the
decoder rejects; in particular, for every decoder behaving like
json.loads on the four sample lines, the sample sequence yields
exactly the two objects. -/
theorem stream_skips_empty_and_undecodable :
    (∀ (decode : String → Option JValue) (lines : List String),
       StreamResponse.stream decode lines
         = lines.filterMap (fun l => if l = "" then none else decode l))
    ∧ (∀ decode : String → Option JValue,
       decode "\x7b\"a\":1\x7d" = some (.obj [("a", .num 1)]) →
       decode "not json" = none →
       decode "\x7b\"b\":2\x7d" = some (.obj [("b", .num 2)]) →
       StreamResponse.stream decode ["", "\x7b\"a\":1\x7d", "not json", "\x7b\"b\":2\x7d"]
         = [.obj [("a", .num 1)], .obj [("b", .num 2)]]) := by
  constructor
  · intro decode lines
    induction lines with
    | nil => rfl
    | cons l rest ih =>
      by_cases h : l = ""
      · subst h
        simpa [StreamResponse.stream] using ih
      · simp only [StreamResponse.stream, List.filterMap_cons, if_neg h]
        cases hd : decode l with
        | none => simpa [hd, h] using ih
        | some v => simpa [hd, h] using ih
  · intro decode h1 h2 h3
    simp only [StreamResponse.stream]
    rw [h1, h2, h3]
    rfl

/-- External collaborator model: json.loads with the object hook, on
the three distinct non-empty sample lines of the stream example (the
two decodable objects decode, the malformed line raises). -/
def exampleDecode : String → Option JValue := fun s =>
  if s = "\x7b\"a\":1\x7d" then some (.obj [("a", .num 1)])
  else if s = "\x7b\"b\":2\x7d" then some (.obj [("b", .num 2)])
  else none

/-- Witness for C3 at the concrete sample decoder. -/
theorem stream_skips_empty_and_undecodable_witness :
    StreamResponse.stream exampleDecode
        ["", "\x7b\"a\":1\x7d", "not json", "\x7b\"b\":2\x7d"]
      = [.obj [("a", .num 1)], .obj [("b", .num 2)]] :=
  stream_skips_empty_and_undecodable.2 exampleDecode rfl rfl rfl

/-- Whether a raised or returned invalidation value is a raised
TwitterClientError. -/
def raisesClientError : Except TwitterError (Option String) → Bool
  | .error (.clientError _) => true
  | _ => false

/-- C2: invalidate_access_token is atomic over the stored token: a
confirmed 200 clears the token, rebuilds the session from the cleared
state (an unauthenticated session) and returns the prior token value;
every other outcome, transport exception or non-200 status, raises
TwitterClientError and leaves the whole client state unchanged. -/
theorem invalidate_token_atomic (c : AppClient) (r : Except String Nat) :
    (r = .ok 200 →
      AppClient.invalidate_access_token c r
        = (.ok c.access_token, { c with access_token := none, session := none }))
    ∧ (r ≠ .ok 200 →
      raisesClientError (AppClient.invalidate_access_token c r).1 = true
      ∧ (AppClient.invalidate_access_token c r).2 = c) := by
  constructor
  · intro h
    subst h
    rfl
  · intro h
    cases r with
    | error e => exact ⟨rfl, rfl⟩
    | ok status =>
      have hs : status ≠ 200 := by
        intro hh
        exact h (by rw [hh])
      simp [AppClient.invalidate_access_token, hs, raisesClientError]

/-- Concrete application client holding a bearer token, for the C2
witness. -/
def sampleAppClient : AppClient :=
  { access_token := some "tok", token_type := "bearer", session := some ("tok", "bearer") }

/-- Witness for C2 at a concrete client and a confirmed 200. -/
theorem invalidate_token_atomic_witness :
    AppClient.invalidate_access_token sampleAppClient (Except.ok 200)
      = (.ok (some "tok"),
         { access_token := none, token_type := "bearer", session := none }) :=
  (invalidate_token_atomic sampleAppClient (Except.ok 200)).1 rfl

/-- C6: get_twitter_error_details takes code and message of the first
element when the errors field is a non-empty sequence, takes them from
the mapping itself when the errors field is a single mapping carrying
them, and falls back to a None code with the generic unknown-error
message when the errors field is absent. -/
theorem error_details_extraction :
    (∀ (fields : List (String × JValue)) (e : JValue) (rest : List JValue) (c m : JValue),
       dictGet fields "errors" = some (.arr (e :: rest)) →
       subscript e "code" = .ok c →
       subscript e "message" = .ok m →
       BaseTwitterClient.get_twitter_error_details (some (.obj fields)) = .ok (c, m))
    ∧ (∀ (fields efields : List (String × JValue)) (c m : JValue),
       dictGet fields "errors" = some (.obj efields) →
       subscript (.obj efields) "code" = .ok c →
       subscript (.obj efields) "message" = .ok m →
       BaseTwitterClient.get_twitter_error_details (some (.obj fields)) = .ok (c, m))
    ∧ (∀ fields : List (String × JValue),
       dictGet fields "errors" = none →
       BaseTwitterClient.get_twitter_error_details (some (.obj fields))
         = .ok (.null, .str unknownErrorMsg)) := by
  refine ⟨?_, ?_, ?_⟩
  · intro fields e rest c m hget hc hm
    cases fields with
    | nil => simp [dictGet] at hget
    | cons f fs =>
      simp [BaseTwitterClient.get_twitter_error_details, extractErrors, JValue.truthy,
        pyGet, hget, detailsFromErrors, codeAndMessage, hc, hm]
  · intro fields efields c m hget hc hm
    have hne : efields ≠ [] := by
      intro hh
      subst hh
      simp [subscript, dictGet] at hc
    cases fields with
    | nil => simp [dictGet] at hget
    | cons f fs =>
      cases efields with
      | nil => exact absurd rfl hne
      | cons g gs =>
        simp [BaseTwitterClient.get_twitter_error_details, extractErrors, JValue.truthy,
          pyGet, hget, detailsFromErrors, codeAndMessage, hc, hm]
  · intro fields hget
    cases fields with
    | nil => rfl
    | cons f fs =>
      simp [BaseTwitterClient.get_twitter_error_details, extractErrors, JValue.truthy,
        pyGet, hget, detailsFromErrors]

/-- Witness for C6 at a concrete body with a one-element errors
sequence. -/
theorem error_details_extraction_witness :
    BaseTwitterClient.get_twitter_error_details
        (some (.obj [("errors",
          .arr [.obj [("code", .num 88), ("message", .str "Rate limit exceeded")]])]))
      = .ok (.num 88, .str "Rate limit exceeded") :=
  error_details_extraction.1
    [("errors", .arr [.obj [("code", .num 88), ("message", .str "Rate limit exceeded")]])]
    (.obj [("code", .num 88), ("message", .str "Rate limit exceeded")]) [] (.num 88)
    (.str "Rate limit exceeded") rfl rfl rfl

/-- A decoded 404 body whose extracted message contains the Bad
Authentication data substring. -/
def badAuthBody : JValue :=
  .obj [("errors",
    .arr [.obj [("code", .num 215), ("message", .str "Bad Authentication data.")]])]

/-- Whether a REST outcome is a raised TwitterApiError whose message is
exactly the Invalid API resource text. -/
def outcomeIsInvalidApiResource : Outcome → Bool
  | .raised (.apiError msg _ _) =>
      match msg with
      | .str s => s = "Invalid API resource."
      | _ => false
  | _ => false

/-- Counterexample to C1: a 404 response whose decoded body carries a
message containing Bad Authentication data is dispatched by the
earlier auth branch, so handle_response raises TwitterAuthError with
the extracted message, not a TwitterApiError with the Invalid API
resource message. -/
theorem rest_404_counterexample :
    outcomeIsInvalidApiResource (BaseTwitterClient.handle_response 404 (some badAuthBody))
      = false
    ∧ BaseTwitterClient.handle_response 404 (some badAuthBody)
        = .raised (.authError (.str "Bad Authentication data.") (some 404) (.num 215)) :=
  ⟨rfl, rfl⟩

/-- C1 amended: for every 404 response whose body decodes and whose
extracted message does not satisfy the auth condition,
handle_response raises TwitterApiError with the message exactly
Invalid API resource and the extracted error code preserved. -/
theorem rest_404_invalid_api_resource (d code msg : JValue)
    (hdet : BaseTwitterClient.get_twitter_error_details (some d) = .ok (code, msg))
    (hauth : authCondition 404 msg = .ok false) :
    BaseTwitterClient.handle_response 404 (some d)
      = .raised (.apiError (.str "Invalid API resource.") (some 404) code) := by
  simp [BaseTwitterClient.handle_response, hdet, hauth]

/-- A decoded 404 body with an ordinary not-found message. -/
def notFoundBody : JValue :=
  .obj [("errors",
    .arr [.obj [("code", .num 34), ("message", .str "Sorry, that page does not exist")]])]

/-- Witness for the amended C1 at a concrete 404 body. -/
theorem rest_404_invalid_api_resource_witness :
    BaseTwitterClient.handle_response 404 (some notFoundBody)
      = .raised (.apiError (.str "Invalid API resource.") (some 404) (.num 34)) :=
  rest_404_invalid_api_resource notFoundBody (.num 34)
    (.str "Sorry, that page does not exist") rfl rfl

/-- C5: on a non-200 response with decoded body and extracted details,
handle_response raises TwitterAuthError exactly when the status is 401
or the extracted message contains the Bad Authentication data
substring; the branch is checked before the 404 and 429 branches, so
it wins on those statuses too. -/
theorem auth_error_dispatch (status : Nat) (d code msg : JValue) (b : Bool)
    (hne : status ≠ 200)
    (hdet : BaseTwitterClient.get_twitter_error_details (some d) = .ok (code, msg))
    (hchk : authCondition status msg = .ok b) :
    BaseTwitterClient.handle_response status (some d)
      = .raised (.authError msg (some status) code)
    ↔ (status = 401 ∨ pyIn "Bad Authentication data" msg = .ok true) := by
  simp only [BaseTwitterClient.handle_response, hdet, hchk, if_neg hne]
  cases b with
  | true =>
    constructor
    · intro _
      by_cases h4 : status = 401
      · exact Or.inl h4
      · right
        unfold authCondition at hchk
        rw [if_neg h4] at hchk
        exact hchk
    · intro _
      rfl
  | false =>
    have h4 : status ≠ 401 := by
      intro hh
      subst hh
      simp [authCondition] at hchk
    have hpy : pyIn "Bad Authentication data" msg = .ok false := by
      unfold authCondition at hchk
      rwa [if_neg h4] at hchk
    constructor
    · intro h
      exfalso
      by_cases s4 : status = 404
      · rw [if_pos s4] at h
        simp at h
      · rw [if_neg s4] at h
        by_cases s9 : status = 429
        · rw [if_pos s9] at h
          simp at h
        · rw [if_neg s9] at h
          simp at h
    · rintro (h | h)
      · exact absurd h h4
      · rw [hpy] at h
        simp at h

/-- Witness for C5: at status 404 with the bad-authentication body the
auth branch fires, showing its precedence concretely. -/
theorem auth_error_dispatch_witness :
    BaseTwitterClient.handle_response 404 (some badAuthBody)
      = .raised (.authError (.str "Bad Authentication data.") (some 404) (.num 215)) :=
  (auth_error_dispatch 404 badAuthBody (.num 215) (.str "Bad Authentication data.") true
    (by decide) rfl rfl).mpr (Or.inr rfl)

/-- The params entry produced for one input item, when it is routed to
the params mapping. -/
def entryParam (kv : String × ParamValue) : Option (String × ParamValue) :=
  match sanitizeEntry kv.1 kv.2 with
  | .ok (.inl kv') => some kv'
  | _ => none

/-- The files entry produced for one input item, when it is routed to
the files mapping. -/
def entryFile (kv : String × ParamValue) : Option (String × ParamValue) :=
  match sanitizeEntry kv.1 kv.2 with
  | .ok (.inr kv') => some kv'
  | _ => none

/-- On a list of string values, the join element extraction succeeds
with exactly those strings. -/
theorem pyStrElems_map_str (xs : List String) :
    pyStrElems (xs.map ParamValue.str) = .ok xs := by
  induction xs with
  | nil => rfl
  | cons s rest ih => simp [pyStrElems, ih]

/-- When every element of the list is a string value, the join element
extraction succeeds. -/
theorem pyStrElems_all_str (elems : List ParamValue)
    (h : ∀ e ∈ elems, ∃ s, e = ParamValue.str s) :
    ∃ strs, pyStrElems elems = .ok strs := by
  induction elems with
  | nil => exact ⟨[], rfl⟩
  | cons e rest ih =>
    obtain ⟨s, rfl⟩ := h e (List.mem_cons_self _ _)
    obtain ⟨strs, hstrs⟩ := ih (fun e' he' => h e' (List.mem_cons_of_mem _ he'))
    exact ⟨s :: strs, by simp [pyStrElems, hstrs]⟩

/-- A successful sanitize_params run is the per-entry classification
mapped over the input: params collects the inl routes, files the inr
routes, in input order. -/
theorem sanitize_params_ok_char (input ps fs : List (String × ParamValue))
    (hok : BaseTwitterClient.sanitize_params input = .ok (ps, fs)) :
    ps = input.filterMap entryParam ∧ fs = input.filterMap entryFile := by
  induction input generalizing ps fs with
  | nil =>
    simp only [BaseTwitterClient.sanitize_params, Except.ok.injEq, Prod.mk.injEq] at hok
    obtain ⟨rfl, rfl⟩ := hok
    exact ⟨rfl, rfl⟩
  | cons kv rest ih =>
    obtain ⟨k0, v0⟩ := kv
    cases hse : sanitizeEntry k0 v0 with
    | error e =>
      simp only [BaseTwitterClient.sanitize_params, hse] at hok
      exact Except.noConfusion hok
    | ok routed =>
      cases hrest : BaseTwitterClient.sanitize_params rest with
      | error e =>
        simp only [BaseTwitterClient.sanitize_params, hse, hrest] at hok
        exact Except.noConfusion hok
      | ok pair =>
        obtain ⟨ps', fs'⟩ := pair
        obtain ⟨ih1, ih2⟩ := ih ps' fs' hrest
        subst ih1
        subst ih2
        cases routed with
        | inl kv' =>
          simp only [BaseTwitterClient.sanitize_params, hse, hrest, Except.ok.injEq,
            Prod.mk.injEq] at hok
          obtain ⟨rfl, rfl⟩ := hok
          constructor
          · simp [List.filterMap_cons, entryParam, hse]
          · simp [List.filterMap_cons, entryFile, hse]
        | inr kv' =>
          simp only [BaseTwitterClient.sanitize_params, hse, hrest, Except.ok.injEq,
            Prod.mk.injEq] at hok
          obtain ⟨rfl, rfl⟩ := hok
          constructor
          · simp [List.filterMap_cons, entryParam, hse]
          · simp [List.filterMap_cons, entryFile, hse]

/-- In a mapping with pairwise distinct keys, two entries at the same
key carry the same value. -/
theorem nodup_keys_value_eq (l : List (String × ParamValue))
    (hnd : (l.map Prod.fst).Nodup)
    (k : String) (v w : ParamValue) (hv : (k, v) ∈ l) (hw : (k, w) ∈ l) : v = w := by
  induction l with
  | nil => simp at hv
  | cons kv rest ih =>
    obtain ⟨k0, v0⟩ := kv
    rw [List.map_cons, List.nodup_cons] at hnd
    obtain ⟨hk0, hndrest⟩ := hnd
    rcases List.mem_cons.mp hv with hv1 | hv2
    · rcases List.mem_cons.mp hw with hw1 | hw2
      · rw [Prod.mk.injEq] at hv1 hw1
        rw [hv1.2, hw1.2]
      · exfalso
        rw [Prod.mk.injEq] at hv1
        apply hk0
        rw [← hv1.1]
        exact List.mem_map.mpr ⟨(k, w), hw2, rfl⟩
    · rcases List.mem_cons.mp hw with hw1 | hw2
      · exfalso
        rw [Prod.mk.injEq] at hw1
        apply hk0
        rw [← hw1.1]
        exact List.mem_map.mpr ⟨(k, v), hv2, rfl⟩
      · exact ih hndrest hv2 hw2

/-- Input whose single value is a tuple of strings, for the C4
counterexample. -/
def tupleParamInput : List (String × ParamValue) :=
  [("ids", .tuple [.str "a", .str "b"])]

/-- Whether a parameter value is the given string. -/
def paramValueIsStr (v : ParamValue) (s : String) : Bool :=
  match v with
  | .str t => t = s
  | _ => false

/-- Counterexample to C4: a tuple value, an ordered sequence of
strings, is not comma-joined by sanitize_params; it falls to the
default branch and passes through unchanged, so its key is not mapped
to the joined string. -/
theorem sanitize_tuple_counterexample :
    BaseTwitterClient.sanitize_params tupleParamInput
      = .ok ([("ids", .tuple [.str "a", .str "b"])], [])
    ∧ paramValueIsStr (.tuple [.str "a", .str "b"]) "a,b" = false :=
  ⟨rfl, rfl⟩

/-- C4 amended: for every input mapping with distinct keys and every
key whose value is a list of strings, sanitize_params maps that key to
the single comma-joined string preserving element order, and the key
does not appear in the files mapping. -/
theorem sanitize_list_of_strings_joined (input ps fs : List (String × ParamValue))
    (hnd : (input.map Prod.fst).Nodup)
    (hok : BaseTwitterClient.sanitize_params input = .ok (ps, fs))
    (k : String) (xs : List String)
    (hmem : (k, ParamValue.list (xs.map ParamValue.str)) ∈ input) :
    (k, ParamValue.str (String.intercalate "," xs)) ∈ ps
    ∧ ∀ v : ParamValue, (k, v) ∉ fs := by
  obtain ⟨hps, hfs⟩ := sanitize_params_ok_char input ps fs hok
  subst hps
  subst hfs
  constructor
  · apply List.mem_filterMap.mpr
    refine ⟨(k, ParamValue.list (xs.map ParamValue.str)), hmem, ?_⟩
    simp [entryParam, sanitizeEntry, pyJoin, pyStrElems_map_str]
  · intro v hv
    obtain ⟨⟨k1, v1⟩, hmem1, hef⟩ := List.mem_filterMap.mp hv
    cases v1 with
    | file h' =>
      simp only [entryFile, sanitizeEntry, Option.some.injEq] at hef
      have hk1 : k1 = k := by
        have := congrArg Prod.fst hef
        exact this
      subst hk1
      have := nodup_keys_value_eq input hnd k1 (ParamValue.file h')
        (ParamValue.list (xs.map ParamValue.str)) hmem1 hmem
      exact ParamValue.noConfusion this
    | bool b => simp [entryFile, sanitizeEntry] at hef
    | list elems =>
      cases hj : pyJoin "," elems with
      | ok s => simp [entryFile, sanitizeEntry, hj] at hef
      | error e => simp [entryFile, sanitizeEntry, hj] at hef
    | tuple elems => simp [entryFile, sanitizeEntry] at hef
    | str s => simp [entryFile, sanitizeEntry] at hef
    | int n => simp [entryFile, sanitizeEntry] at hef

/-- Witness for the amended C4 at a concrete mapping with one list of
strings. -/
theorem sanitize_list_of_strings_joined_witness :
    ("follow", ParamValue.str (String.intercalate "," ["12", "34"]))
      ∈ [("follow", ParamValue.str "12,34")] :=
  (sanitize_list_of_strings_joined
    [("follow", ParamValue.list [ParamValue.str "12", ParamValue.str "34"])]
    [("follow", ParamValue.str "12,34")] [] (by simp) rfl "follow" ["12", "34"]
    (by simp)).1

/-- Every list value of the input mapping contains only string
elements. -/
def allListElemsStr (input : List (String × ParamValue)) : Prop :=
  ∀ k elems, (k, ParamValue.list elems) ∈ input → ∀ e ∈ elems, ∃ s, e = ParamValue.str s

/-- C10: sanitize_params raises nothing on a mapping whose list values
hold only strings; a list holding a non-string element (here integers)
makes the comma-join raise a TypeError that escapes; and only list
values are comma-joined: a tuple, though an ordered sequence, falls to
the default branch and passes through unchanged. -/
theorem sanitize_params_total_and_list_only :
    (∀ input : List (String × ParamValue), allListElemsStr input →
       (BaseTwitterClient.sanitize_params input).isOk = true)
    ∧ BaseTwitterClient.sanitize_params [("ids", .list [.int 1, .int 2])]
        = .error (.typeError "sequence item: expected str instance")
    ∧ (∀ (k : String) (elems : List ParamValue),
        BaseTwitterClient.sanitize_params [(k, .tuple elems)]
          = .ok ([(k, .tuple elems)], [])) := by
  refine ⟨?_, rfl, fun k elems => rfl⟩
  intro input
  induction input with
  | nil => intro _; rfl
  | cons kv rest ih =>
    obtain ⟨k0, v0⟩ := kv
    intro h
    have hrest : allListElemsStr rest :=
      fun k es hm => h k es (List.mem_cons_of_mem _ hm)
    have hrestOk := ih hrest
    cases hr : BaseTwitterClient.sanitize_params rest with
    | error e =>
      rw [hr] at hrestOk
      exact Bool.noConfusion hrestOk
    | ok pair =>
      obtain ⟨ps', fs'⟩ := pair
      cases v0 with
      | file h' => simp [BaseTwitterClient.sanitize_params, sanitizeEntry, hr, Except.isOk, Except.toBool]
      | bool b => simp [BaseTwitterClient.sanitize_params, sanitizeEntry, hr, Except.isOk, Except.toBool]
      | list elems =>
        obtain ⟨strs, hstrs⟩ :=
          pyStrElems_all_str elems (h k0 elems (List.mem_cons_self _ _))
        simp [BaseTwitterClient.sanitize_params, sanitizeEntry, pyJoin, hstrs, hr, Except.isOk, Except.toBool]
      | tuple elems => simp [BaseTwitterClient.sanitize_params, sanitizeEntry, hr, Except.isOk, Except.toBool]
      | str s => simp [BaseTwitterClient.sanitize_params, sanitizeEntry, hr, Except.isOk, Except.toBool]
      | int n => simp [BaseTwitterClient.sanitize_params, sanitizeEntry, hr, Except.isOk, Except.toBool]

/-- Witness for C10 at a concrete all-string mapping. -/
theorem sanitize_params_total_witness :
    (BaseTwitterClient.sanitize_params
        [("follow", ParamValue.list [ParamValue.str "12", ParamValue.str "34"]),
         ("stall_warnings", ParamValue.bool true)]).isOk = true :=
  sanitize_params_total_and_list_only.1 _ (by
    intro k elems hmem e he
    simp only [List.mem_cons, List.not_mem_nil, or_false, Prod.mk.injEq] at hmem
    rcases hmem with ⟨-, helems⟩ | ⟨-, helems⟩
    · obtain rfl := (ParamValue.list.injEq _ _).mp helems.symm
      simp only [List.mem_cons, List.not_mem_nil, or_false] at he
      rcases he with rfl | rfl
      · exact ⟨"12", rfl⟩
      · exact ⟨"34", rfl⟩
    · exact ParamValue.noConfusion helems)

end Birdy
